import Mathlib

/-!
Verification of the quiz-card extraction program (src/main.py).

The program parses a two-column PDF into `QuizCard` records via a
token-level state machine (`parse_pdf`) and serializes them to CSV
(`save_to_csv`).  PDF geometry and file I/O are external collaborators;
the claims are about the field-assignment state machine applied to the
flattened token stream, about the finalizer, and about CSV output, so we
embed the per-token transition (the body of the innermost loop of
`parse_pdf`), the end-of-input finalizer, and `save_to_csv`/`to_dict`.
String primitives (startswith, slicing, strip, join) are embedded as
structurally recursive functions on character lists so that every
definition evaluates inside the kernel.
-/

namespace QuizCardProg

/-- Test that the second character list begins with the first
(Python `str.startswith` on the underlying characters). -/
def takesPre : List Char → List Char → Bool
  | [], _ => true
  | _ :: _, [] => false
  | p :: ps, c :: cs => p == c && takesPre ps cs

/-- Embedding of Python `w.startswith(p)`. -/
def strStartsWith (w p : String) : Bool :=
  takesPre p.data w.data

/-- Embedding of Python slicing `w[n:]`. -/
def strDrop (w : String) (n : Nat) : String :=
  String.mk (w.data.drop n)

/-- Characters stripped by the Python `str.strip()` default (ASCII whitespace). -/
def isPySpace (c : Char) : Bool :=
  c == ' ' || c == '\t' || c == '\n' || c == '\r' || c == '\x0b' || c == '\x0c'

/-- Embedding of Python `s.strip()`: drop leading and trailing whitespace. -/
def pyStrip (s : String) : String :=
  String.mk (((s.data.dropWhile isPySpace).reverse.dropWhile isPySpace).reverse)

/-- Embedding of `re.search` with the pattern digits, colon, digits
succeeding on `w`: the regex finds a match somewhere in `w` iff `w`
contains three consecutive characters digit, colon, digit (the minimal
match of the pattern). -/
def hasChapterVerse : List Char → Bool
  | a :: b :: c :: rest =>
      (a.isDigit && b == ':' && c.isDigit) || hasChapterVerse (b :: c :: rest)
  | _ => false

/-- Full-match reading of the chapter:verse pattern (`re.fullmatch`): the
whole token is one-or-more digits, a colon, one-or-more digits.  This is
the reading of the claim under test for C6; the source uses `search`. -/
def exactChapterVerse (cs : List Char) : Bool :=
  match cs.span (fun c => c.isDigit) with
  | (ds, ':' :: rest) => !ds.isEmpty && !rest.isEmpty && rest.all (fun c => c.isDigit)
  | _ => false

/-- The record accumulated by the state machine (class `QuizCard`). -/
structure QuizCard where
  card_type : String
  ref : String
  extra_info : String
  club : String
  question : String
  answer : String
deriving Repr, DecidableEq

/-- The constructor default: all six fields empty (`QuizCard()`). -/
def QuizCard.empty : QuizCard := ⟨"", "", "", "", "", ""⟩

/-- The `current_field` values used by `parse_pdf`. -/
inductive FieldName where
  | type | ref | extra_info | club | question | answer
deriving Repr, DecidableEq

/-- Field projection of a `QuizCard` by field name. -/
def getF (c : QuizCard) : FieldName → String
  | .type => c.card_type
  | .ref => c.ref
  | .extra_info => c.extra_info
  | .club => c.club
  | .question => c.question
  | .answer => c.answer

/-- Field update of a `QuizCard` by field name. -/
def setF (c : QuizCard) : FieldName → String → QuizCard
  | .type, v => { c with card_type := v }
  | .ref, v => { c with ref := v }
  | .extra_info, v => { c with extra_info := v }
  | .club, v => { c with club := v }
  | .question, v => { c with question := v }
  | .answer, v => { c with answer := v }

/-- Python truthiness test used by `parse_pdf` at both finalize points:
`current_card.card_type and current_card.ref and current_card.question and
current_card.answer` (all four required fields non-empty). -/
def isComplete (c : QuizCard) : Bool :=
  !(c.card_type == "") && !(c.ref == "") && !(c.question == "") && !(c.answer == "")

/-- The state threaded through the token loop of `parse_pdf`:
the emitted cards, the in-progress card, and the current field. -/
structure ParseState where
  cards : List QuizCard
  card : QuizCard
  field : Option FieldName
deriving Repr, DecidableEq

/-- The initial state of `parse_pdf`: `cards = []`, `current_card = QuizCard()`,
`current_field = None`. -/
def initState : ParseState := ⟨[], QuizCard.empty, none⟩

/-- One iteration of the innermost loop of `parse_pdf` (lines 113-184):
the per-token transition of the field-assignment state machine, translated
branch by branch from the `if`/`elif` chain. -/
def step (st : ParseState) (w : String) : ParseState :=
  if strStartsWith w "Type:" = true then
    let st1 :=
      if isComplete st.card = true then
        { st with cards := st.cards ++ [st.card], card := QuizCard.empty }
      else st
    { st1 with field := some FieldName.type,
               card := { st1.card with card_type := pyStrip (strDrop w 5) } }
  else if strStartsWith w "Ref:" = true then
    { st with field := some FieldName.ref,
              card := { st.card with ref := pyStrip (strDrop w 4) } }
  else if st.field = some FieldName.ref ∧ hasChapterVerse w.data = true then
    { st with field := some FieldName.extra_info,
              card := { st.card with ref := st.card.ref ++ " " ++ w } }
  else if strStartsWith w "Club" = true then
    { st with field := some FieldName.club,
              card := { st.card with club := pyStrip (strDrop w 4) } }
  else if strStartsWith w "Question:" = true then
    { st with field := some FieldName.question,
              card := { st.card with question := pyStrip (strDrop w 9) } }
  else if strStartsWith w "Answer:" = true then
    { st with field := some FieldName.answer,
              card := { st.card with answer := pyStrip (strDrop w 7) } }
  else
    match st.field with
    | some f => { st with card := setF st.card f (getF st.card f ++ " " ++ w) }
    | none => st

/-- Running the machine over a token list from a given state. -/
def runFrom (st : ParseState) (ws : List String) : ParseState :=
  ws.foldl step st

/-- Running the machine over a token list from the initial state. -/
def run (ws : List String) : ParseState :=
  runFrom initState ws

/-- The end-of-input finalizer of `parse_pdf` (lines 186-196): the last card
is appended iff complete; otherwise it is reported on the diagnostic channel
(the `print` of the incomplete card), modelled as the second component. -/
def finalize (st : ParseState) : List QuizCard × List QuizCard :=
  if isComplete st.card = true then (st.cards ++ [st.card], [])
  else (st.cards, [st.card])

/-- The whole token-level parse: returned cards and diagnostics. -/
def parseTokens (ws : List String) : List QuizCard × List QuizCard :=
  finalize (run ws)

/-- Header-token test: the token starts with one of the five recognized
field markers of `parse_pdf`. -/
def isHeader (w : String) : Bool :=
  strStartsWith w "Type:" || strStartsWith w "Ref:" || strStartsWith w "Club" ||
    strStartsWith w "Question:" || strStartsWith w "Answer:"

/-- Observable signature of the chapter:verse branch of `step` (lines
140-150): the current field switches to `extra_info` and the whole token is
appended to `ref` after a separating space.  No other branch of `step`
produces this pair of effects, so this predicate holds iff that branch ran. -/
def firesChapterVerse (st : ParseState) (w : String) : Prop :=
  (step st w).field = some FieldName.extra_info ∧
  (step st w).card.ref = st.card.ref ++ " " ++ w

/-- Embedding of `QuizCard.to_dict` (lines 60-74): keyed, stripped field
values in declaration order. -/
def to_dict (c : QuizCard) : List (String × String) :=
  [("Type", pyStrip c.card_type), ("Ref", pyStrip c.ref),
   ("Extra Info", pyStrip c.extra_info), ("Club", pyStrip c.club),
   ("Question", pyStrip c.question), ("Answer", pyStrip c.answer)]

/-- The CSV column names of `save_to_csv` (line 211). -/
def fieldnames : List String :=
  ["Type", "Ref", "Extra Info", "Club", "Question", "Answer"]

/-- Double every double-quote character (the `QUOTE_ALL` escaping rule). -/
def escapeQuotes (cs : List Char) : List Char :=
  cs.foldr (fun c acc => if c = '"' then '"' :: '"' :: acc else c :: acc) []

/-- CSV quoting under `csv.QUOTE_ALL`: every value is wrapped in double
quotes, with embedded double quotes doubled. -/
def csvQuote (s : String) : String :=
  "\"" ++ String.mk (escapeQuotes s.data) ++ "\""

/-- Comma join, as Python `",".join`. -/
def joinComma : List String → String
  | [] => ""
  | [x] => x
  | x :: y :: xs => x ++ "," ++ joinComma (y :: xs)

/-- One CSV row: the quoted values joined by commas. -/
def csvRow (vals : List String) : String :=
  joinComma (vals.map csvQuote)

/-- Embedding of `save_to_csv` (lines 201-219): the header row from
`fieldnames`, then one row per card, each value looked up in the card
dictionary by column name, as `csv.DictWriter` does. -/
def save_to_csv (cards : List QuizCard) : List String :=
  csvRow fieldnames ::
    cards.map (fun c => csvRow (fieldnames.map (fun k => ((to_dict c).lookup k).getD "")))

/-- The token sequence of the C1 acceptance example. -/
def c1Tokens : List String :=
  ["Type:SIT", "Ref:", "John", "3:16", "extra", "words", "Club", "East",
   "Question:", "Who", "wrote", "this?", "Answer:", "John"]

end QuizCardProg

namespace QuizCardProg

/-- A string never equals itself extended by a space and a word. -/
theorem self_ne_append_word (s w : String) : s ≠ s ++ " " ++ w := by
  intro h
  have hlen := congrArg String.length h
  have h1 : (" " : String).length = 1 := rfl
  rw [String.length_append, String.length_append, h1] at hlen
  omega

/-- A Bool that is not true is false. -/
theorem bool_not_true {b : Bool} (h : ¬ b = true) : b = false := by
  cases b
  · rfl
  · exact absurd rfl h

/-- Reduction of `step` on a token carrying the Type marker (lines 115-133). -/
theorem step_type (st : ParseState) (w : String)
    (hT : strStartsWith w "Type:" = true) :
    step st w =
      if isComplete st.card = true then
        { cards := st.cards ++ [st.card],
          card := { QuizCard.empty with card_type := pyStrip (strDrop w 5) },
          field := some FieldName.type }
      else
        { st with card := { st.card with card_type := pyStrip (strDrop w 5) },
                  field := some FieldName.type } := by
  by_cases hc : isComplete st.card = true <;> simp [step, hT, hc]

/-- Reduction of `step` on a token carrying the Ref marker (lines 135-138). -/
theorem step_ref (st : ParseState) (w : String)
    (hT : strStartsWith w "Type:" = false) (hR : strStartsWith w "Ref:" = true) :
    step st w = { st with field := some FieldName.ref,
                          card := { st.card with ref := pyStrip (strDrop w 4) } } := by
  simp [step, hT, hR]

/-- Reduction of `step` on the chapter:verse branch (lines 140-150). -/
theorem step_chapverse (st : ParseState) (w : String)
    (hT : strStartsWith w "Type:" = false) (hR : strStartsWith w "Ref:" = false)
    (hf : st.field = some FieldName.ref) (hcv : hasChapterVerse w.data = true) :
    step st w = { st with field := some FieldName.extra_info,
                          card := { st.card with ref := st.card.ref ++ " " ++ w } } := by
  simp [step, hT, hR, hf, hcv]

/-- Reduction of `step` on a token carrying the Club marker (lines 152-155). -/
theorem step_club (st : ParseState) (w : String)
    (hT : strStartsWith w "Type:" = false) (hR : strStartsWith w "Ref:" = false)
    (hg : ¬(st.field = some FieldName.ref ∧ hasChapterVerse w.data = true))
    (hC : strStartsWith w "Club" = true) :
    step st w = { st with field := some FieldName.club,
                          card := { st.card with club := pyStrip (strDrop w 4) } } := by
  simp [step, hT, hR, hg, hC]

/-- Reduction of `step` on a token carrying the Question marker (lines 157-162). -/
theorem step_question (st : ParseState) (w : String)
    (hT : strStartsWith w "Type:" = false) (hR : strStartsWith w "Ref:" = false)
    (hg : ¬(st.field = some FieldName.ref ∧ hasChapterVerse w.data = true))
    (hC : strStartsWith w "Club" = false) (hQ : strStartsWith w "Question:" = true) :
    step st w = { st with field := some FieldName.question,
                          card := { st.card with question := pyStrip (strDrop w 9) } } := by
  simp [step, hT, hR, hg, hC, hQ]

/-- Reduction of `step` on a token carrying the Answer marker (lines 164-167). -/
theorem step_answer (st : ParseState) (w : String)
    (hT : strStartsWith w "Type:" = false) (hR : strStartsWith w "Ref:" = false)
    (hg : ¬(st.field = some FieldName.ref ∧ hasChapterVerse w.data = true))
    (hC : strStartsWith w "Club" = false) (hQ : strStartsWith w "Question:" = false)
    (hA : strStartsWith w "Answer:" = true) :
    step st w = { st with field := some FieldName.answer,
                          card := { st.card with answer := pyStrip (strDrop w 7) } } := by
  simp [step, hT, hR, hg, hC, hQ, hA]

/-- Reduction of `step` on a continuation word with an open field (lines 169-184). -/
theorem step_cont_some (st : ParseState) (w : String) (f : FieldName)
    (hH : isHeader w = false) (hf : st.field = some f)
    (hcv : f = FieldName.ref → hasChapterVerse w.data = false) :
    step st w = { st with card := setF st.card f (getF st.card f ++ " " ++ w) } := by
  simp only [isHeader, Bool.or_eq_false_iff] at hH
  obtain ⟨⟨⟨⟨hT, hR⟩, hC⟩, hQ⟩, hA⟩ := hH
  cases f with
  | ref => simp [step, hT, hR, hC, hQ, hA, hf, hcv rfl, setF, getF]
  | type => simp [step, hT, hR, hC, hQ, hA, hf, setF, getF]
  | extra_info => simp [step, hT, hR, hC, hQ, hA, hf, setF, getF]
  | club => simp [step, hT, hR, hC, hQ, hA, hf, setF, getF]
  | question => simp [step, hT, hR, hC, hQ, hA, hf, setF, getF]
  | answer => simp [step, hT, hR, hC, hQ, hA, hf, setF, getF]

/-- Reduction of `step` on a continuation word with no open field: the token
is discarded. -/
theorem step_cont_none (st : ParseState) (w : String)
    (hH : isHeader w = false) (hf : st.field = none) :
    step st w = st := by
  simp only [isHeader, Bool.or_eq_false_iff] at hH
  obtain ⟨⟨⟨⟨hT, hR⟩, hC⟩, hQ⟩, hA⟩ := hH
  simp [step, hT, hR, hC, hQ, hA, hf]

end QuizCardProg

namespace QuizCardProg

/-- The first character of a token that passes a `takesPre` test with a
non-empty pattern equals the first pattern character. -/
theorem takesPre_head (p : List Char) (a : Char) (w : List Char)
    (hp : takesPre (a :: p) w = true) : ∃ ws, w = a :: ws := by
  cases w with
  | nil => simp [takesPre] at hp
  | cons c cs =>
    simp only [takesPre, Bool.and_eq_true, beq_iff_eq] at hp
    exact ⟨cs, by rw [hp.1]⟩

/-- A token carrying the Club marker carries neither the Type nor the Ref
marker (the markers differ in their first character). -/
theorem club_not_type_ref (w : String) (hC : strStartsWith w "Club" = true) :
    strStartsWith w "Type:" = false ∧ strStartsWith w "Ref:" = false := by
  obtain ⟨ws, hw⟩ := takesPre_head ['l', 'u', 'b'] 'C' w.data hC
  unfold strStartsWith
  rw [hw]
  constructor <;> rfl

/-- C1: on the acceptance token sequence the machine produces one record,
but its continuation-built fields carry a leading space, so the record is
not the claimed one: its `ref` is " John 3:16", not "John 3:16". -/
theorem c1_acceptance_counterexample :
    (parseTokens c1Tokens).1 ≠
      [⟨"SIT", "John 3:16", "extra words", "East", "Who wrote this?", "John"⟩] := by
  decide

/-- C1 (amended): the acceptance token sequence yields exactly one completed
record and no diagnostics; each field built from continuation words carries
one leading space, and the trimmed values produced by `to_dict` are exactly
the claimed type SIT, ref John 3:16, extra info, club, question and answer. -/
theorem c1_acceptance_amended :
    parseTokens c1Tokens =
      ([⟨"SIT", " John 3:16", " extra words", " East", " Who wrote this?", " John"⟩], []) ∧
    to_dict ⟨"SIT", " John 3:16", " extra words", " East", " Who wrote this?", " John"⟩ =
      [("Type", "SIT"), ("Ref", "John 3:16"), ("Extra Info", "extra words"),
       ("Club", "East"), ("Question", "Who wrote this?"), ("Answer", "John")] := by
  decide

/-- C2: the Club branch strips only the four characters of "Club", so the
token "Club:East" stores ":East" (a stray leading colon), and the token
"Clubhouse" is classified as a Club header. -/
theorem c2_club_counterexample :
    (step initState "Club:East").card.club ≠ "East" ∧
    (step initState "Club:East").card.club = ":East" ∧
    (step initState "Clubhouse").field = some FieldName.club := by
  decide

/-- C2 (amended): a token starting with Club, when it reaches the Club
branch (the chapter:verse rule does not preempt it), sets the current field
to club and stores the token with exactly the four literal characters Club
stripped and trimmed; a Club: token therefore keeps its colon, and a token
such as Clubhouse is classified as a Club header. -/
theorem c2_club_amended (st : ParseState) (w : String)
    (hC : strStartsWith w "Club" = true)
    (hcv : st.field = some FieldName.ref → hasChapterVerse w.data = false) :
    step st w = { st with field := some FieldName.club,
                          card := { st.card with club := pyStrip (strDrop w 4) } } := by
  obtain ⟨hT, hR⟩ := club_not_type_ref w hC
  have hg : ¬(st.field = some FieldName.ref ∧ hasChapterVerse w.data = true) := by
    rintro ⟨h1, h2⟩
    rw [hcv h1] at h2
    exact Bool.false_ne_true h2
  exact step_club st w hT hR hg hC

/-- Witness for C2 (amended) at the concrete token "Club:East" from the
initial state. -/
theorem c2_club_witness :
    step initState "Club:East" =
      ⟨[], ⟨"", "", "", ":East", "", ""⟩, some FieldName.club⟩ :=
  (c2_club_amended initState "Club:East" (by decide) (by decide)).trans (by decide)

/-- C4: a Type: token while the record is complete emits it and starts a
fresh record holding only the new stripped type; while the record is
incomplete nothing is emitted and the same record continues with only its
type field replaced. -/
theorem c4_type_header (st : ParseState) (w : String)
    (hT : strStartsWith w "Type:" = true) :
    (isComplete st.card = true →
      step st w = ⟨st.cards ++ [st.card],
                   { QuizCard.empty with card_type := pyStrip (strDrop w 5) },
                   some FieldName.type⟩) ∧
    (isComplete st.card = false →
      step st w = ⟨st.cards,
                   { st.card with card_type := pyStrip (strDrop w 5) },
                   some FieldName.type⟩) := by
  constructor
  · intro hc
    rw [step_type st w hT]
    simp [hc]
  · intro hc
    rw [step_type st w hT]
    simp [hc]

/-- Witness for C4 at a complete and at an incomplete concrete state. -/
theorem c4_type_header_witness :
    step ⟨[], ⟨"T", "R", "", "", "Q", "A"⟩, none⟩ "Type:X" =
      ⟨[⟨"T", "R", "", "", "Q", "A"⟩], ⟨"X", "", "", "", "", ""⟩, some FieldName.type⟩ ∧
    step ⟨[], ⟨"T", "R", "", "", "Q", ""⟩, none⟩ "Type:X" =
      ⟨[], ⟨"X", "R", "", "", "Q", ""⟩, some FieldName.type⟩ := by
  constructor
  · exact ((c4_type_header ⟨[], ⟨"T", "R", "", "", "Q", "A"⟩, none⟩ "Type:X"
      (by decide)).1 (by decide)).trans (by decide)
  · exact ((c4_type_header ⟨[], ⟨"T", "R", "", "", "Q", ""⟩, none⟩ "Type:X"
      (by decide)).2 (by decide)).trans (by decide)

/-- C10: a parse that consumes zero tokens returns no records and exactly
one end-of-input diagnostic describing the freshly created record, all of
whose six fields are empty. -/
theorem c10_empty_input :
    parseTokens [] = ([], [QuizCard.empty]) ∧
    QuizCard.empty = ⟨"", "", "", "", "", ""⟩ := by
  decide

end QuizCardProg

namespace QuizCardProg

/-- A record with an empty answer is incomplete. -/
theorem isComplete_of_answer_empty (c : QuizCard) (h : c.answer = "") :
    isComplete c = false := by
  simp [isComplete, h]

/-- C3: at the Type: finalize point an incomplete record is neither dropped
nor reported: after Type:A, Ref:x, Type:B the accumulated ref "x" survives
into the record emitted later, and the diagnostic channel stays empty, so
the incomplete record at the Type:B point was continued, not dropped. -/
theorem c3_finalize_counterexample :
    (run ["Type:A", "Ref:x", "Type:B"]).cards = [] ∧
    (run ["Type:A", "Ref:x", "Type:B"]).card.ref = "x" ∧
    parseTokens ["Type:A", "Ref:x", "Type:B", "Question:q", "Answer:a"] =
      ([⟨"B", "x", "", "", "q", "a"⟩], []) := by
  decide

/-- C3 (amended): at the Type: finalize point the in-progress record is
emitted iff complete, and when incomplete it is neither dropped nor
reported: the same record continues with its other fields intact.  At
end-of-input the record is emitted iff complete and otherwise dropped and
reported with its partial contents on the diagnostic channel; in
particular a record with an empty answer at end-of-input never reaches the
output and is the sole diagnostic. -/
theorem c3_finalize_amended :
    (∀ st w, strStartsWith w "Type:" = true →
      (isComplete st.card = true → (step st w).cards = st.cards ++ [st.card]) ∧
      (isComplete st.card = false →
        (step st w).cards = st.cards ∧
        (step st w).card = { st.card with card_type := pyStrip (strDrop w 5) })) ∧
    (∀ ws, isComplete (run ws).card = true →
      (parseTokens ws).1 = (run ws).cards ++ [(run ws).card] ∧ (parseTokens ws).2 = []) ∧
    (∀ ws, isComplete (run ws).card = false →
      (parseTokens ws).1 = (run ws).cards ∧ (parseTokens ws).2 = [(run ws).card]) ∧
    (∀ ws, (run ws).card.answer = "" →
      (parseTokens ws).1 = (run ws).cards ∧ (parseTokens ws).2 = [(run ws).card]) := by
  have hemit : ∀ ws, isComplete (run ws).card = true →
      (parseTokens ws).1 = (run ws).cards ++ [(run ws).card] ∧ (parseTokens ws).2 = [] := by
    intro ws h
    show (finalize (run ws)).1 = (run ws).cards ++ [(run ws).card] ∧
      (finalize (run ws)).2 = []
    rw [finalize]
    simp [h]
  have hend : ∀ ws, isComplete (run ws).card = false →
      (parseTokens ws).1 = (run ws).cards ∧ (parseTokens ws).2 = [(run ws).card] := by
    intro ws h
    show (finalize (run ws)).1 = (run ws).cards ∧ (finalize (run ws)).2 = [(run ws).card]
    rw [finalize]
    simp [h]
  refine ⟨?_, hemit, hend, ?_⟩
  · intro st w hT
    constructor
    · intro hc
      rw [step_type st w hT]
      simp [hc]
    · intro hc
      rw [step_type st w hT]
      simp [hc]
  · intro ws h
    exact hend ws (isComplete_of_answer_empty _ h)

/-- Witness for C3 (amended): the emission at a complete Type: point, the
emission of a complete record at end-of-input, and the drop-and-report of a
record missing its answer at end-of-input. -/
theorem c3_finalize_witness :
    (step ⟨[], ⟨"T", "R", "", "", "Q", "A"⟩, none⟩ "Type:Y").cards =
      [⟨"T", "R", "", "", "Q", "A"⟩] ∧
    (parseTokens ["Type:A", "Ref:r", "Question:q", "Answer:a"]).1 =
      [⟨"A", "r", "", "", "q", "a"⟩] ∧
    (parseTokens ["Type:A", "Ref:r", "Question:q", "Answer:a"]).2 = [] ∧
    (parseTokens ["Type:A", "Ref:r", "Question:q"]).1 = [] ∧
    (parseTokens ["Type:A", "Ref:r", "Question:q"]).2 = [⟨"A", "r", "", "", "q", ""⟩] := by
  refine ⟨?_, ?_, ?_, ?_, ?_⟩
  · exact ((c3_finalize_amended.1 ⟨[], ⟨"T", "R", "", "", "Q", "A"⟩, none⟩ "Type:Y"
      (by decide)).1 (by decide)).trans (by decide)
  · exact ((c3_finalize_amended.2.1 ["Type:A", "Ref:r", "Question:q", "Answer:a"]
      (by decide)).1).trans (by decide)
  · exact (c3_finalize_amended.2.1 ["Type:A", "Ref:r", "Question:q", "Answer:a"]
      (by decide)).2
  · exact ((c3_finalize_amended.2.2.2 ["Type:A", "Ref:r", "Question:q"] (by decide)).1).trans
      (by decide)
  · exact ((c3_finalize_amended.2.2.2 ["Type:A", "Ref:r", "Question:q"] (by decide)).2).trans
      (by decide)

/-- C5: the invariant fails on the code: appending a continuation word to a
still-empty field adds a leading space, as the ref field after the tokens
Ref: and John shows. -/
theorem c5_invariant_counterexample :
    (run ["Ref:", "John"]).card.ref = " John" ∧
    ((run ["Ref:", "John"]).card.ref).data.head? = some ' ' := by
  decide

/-- C5 (amended): a continuation word is always appended to the open field
as a space followed by the word, even when the field is still empty, so a
field whose first content arrives as a continuation word carries one
leading space; the other state components are unchanged. -/
theorem c5_invariant_amended (st : ParseState) (w : String) (f : FieldName)
    (hH : isHeader w = false) (hf : st.field = some f)
    (hcv : f = FieldName.ref → hasChapterVerse w.data = false) :
    (step st w).card = setF st.card f (getF st.card f ++ " " ++ w) ∧
    (step st w).field = st.field ∧
    (step st w).cards = st.cards := by
  rw [step_cont_some st w f hH hf hcv]
  exact ⟨rfl, rfl, rfl⟩

/-- Witness for C5 (amended): appending John to the still-empty ref field
yields a leading space. -/
theorem c5_invariant_witness :
    (step ⟨[], QuizCard.empty, some FieldName.ref⟩ "John").card.ref = " John" := by
  have h := (c5_invariant_amended ⟨[], QuizCard.empty, some FieldName.ref⟩ "John"
    FieldName.ref (by decide) rfl (by decide)).1
  rw [h]
  decide

/-- C7: a token sequence with no header-marked token leaves the machine in
its initial state: every field of the in-progress record is empty, no field
is open, and no record is emitted. -/
theorem c7_no_header_tokens (ws : List String)
    (h : ∀ w ∈ ws, isHeader w = false) :
    run ws = initState ∧ (parseTokens ws).1 = [] := by
  have hrun : ∀ (l : List String), (∀ w ∈ l, isHeader w = false) →
      runFrom initState l = initState := by
    intro l
    induction l with
    | nil => intro _; rfl
    | cons x xs ih =>
      intro hl
      have hx := hl x (List.mem_cons_self x xs)
      have hstep : step initState x = initState := step_cont_none initState x hx rfl
      show runFrom initState (x :: xs) = initState
      rw [runFrom, List.foldl_cons, hstep]
      exact ih fun w hw => hl w (List.mem_cons_of_mem x hw)
  have h1 : run ws = initState := hrun ws h
  refine ⟨h1, ?_⟩
  show (finalize (run ws)).1 = []
  rw [h1]
  rfl

/-- Witness for C7 on a concrete headerless token sequence. -/
theorem c7_no_header_tokens_witness :
    run ["hello", "world"] = initState ∧
    (parseTokens ["hello", "world"]).1 = [] :=
  c7_no_header_tokens ["hello", "world"] (by decide)

end QuizCardProg

namespace QuizCardProg

/-- C6: the chapter:verse rule fires on a token that is not exactly a
chapter:verse marker: from an open ref field the token "3:16a" closes the
reference although it does not match the full digits-colon-digits pattern. -/
theorem c6_chapverse_counterexample :
    firesChapterVerse ⟨[], QuizCard.empty, some FieldName.ref⟩ "3:16a" ∧
    exactChapterVerse "3:16a".data = false := by
  unfold firesChapterVerse
  decide

/-- C6 (amended): the chapter:verse rule fires exactly when the current
field is ref, the token carries neither the Type: nor the Ref: marker, and
the token contains a digit-colon-digit substring anywhere inside it (the
source uses a regex search, not a full match); when it fires the whole
token is appended to ref and the current field switches to extra info. -/
theorem c6_chapverse_amended (st : ParseState) (w : String) :
    firesChapterVerse st w ↔
      (strStartsWith w "Type:" = false ∧ strStartsWith w "Ref:" = false ∧
       st.field = some FieldName.ref ∧ hasChapterVerse w.data = true) := by
  constructor
  · rintro ⟨h1, h2⟩
    by_cases hT : strStartsWith w "Type:" = true
    · exfalso
      rw [step_type st w hT] at h1
      by_cases hc : isComplete st.card = true <;> simp [hc] at h1
    have hT' : strStartsWith w "Type:" = false := bool_not_true hT
    by_cases hR : strStartsWith w "Ref:" = true
    · exfalso
      rw [step_ref st w hT' hR] at h1
      simp at h1
    have hR' : strStartsWith w "Ref:" = false := bool_not_true hR
    by_cases hg : st.field = some FieldName.ref ∧ hasChapterVerse w.data = true
    · exact ⟨hT', hR', hg.1, hg.2⟩
    exfalso
    by_cases hC : strStartsWith w "Club" = true
    · rw [step_club st w hT' hR' hg hC] at h1
      simp at h1
    have hC' : strStartsWith w "Club" = false := bool_not_true hC
    by_cases hQ : strStartsWith w "Question:" = true
    · rw [step_question st w hT' hR' hg hC' hQ] at h1
      simp at h1
    have hQ' : strStartsWith w "Question:" = false := bool_not_true hQ
    by_cases hA : strStartsWith w "Answer:" = true
    · rw [step_answer st w hT' hR' hg hC' hQ' hA] at h1
      simp at h1
    have hA' : strStartsWith w "Answer:" = false := bool_not_true hA
    have hH : isHeader w = false := by
      simp [isHeader, hT', hR', hC', hQ', hA']
    cases hf : st.field with
    | none =>
      rw [step_cont_none st w hH hf] at h1
      rw [hf] at h1
      exact Option.noConfusion h1
    | some f =>
      have hcv : f = FieldName.ref → hasChapterVerse w.data = false := by
        intro hfr
        rcases Bool.eq_false_or_eq_true (hasChapterVerse w.data) with hb | hb
        · exact absurd ⟨by rw [hf, hfr], hb⟩ hg
        · exact hb
      rw [step_cont_some st w f hH hf hcv] at h1 h2
      cases f with
      | extra_info =>
        simp only [setF] at h2
        exact self_ne_append_word st.card.ref w h2
      | type => rw [hf] at h1; simp at h1
      | ref => rw [hf] at h1; simp at h1
      | club => rw [hf] at h1; simp at h1
      | question => rw [hf] at h1; simp at h1
      | answer => rw [hf] at h1; simp at h1
  · rintro ⟨hT, hR, hf, hcv⟩
    unfold firesChapterVerse
    rw [step_chapverse st w hT hR hf hcv]
    exact ⟨rfl, rfl⟩

/-- C9: the containment rule is preempted by the Type: and Ref: branches:
from an open ref field the token "Ref:3:16" contains a digit-colon-digit
substring, yet the chapter:verse rule does not fire on it (the Ref: branch
consumes it first), so the rule does not fire for every token containing
such a substring. -/
theorem c9_search_counterexample :
    (⟨[], QuizCard.empty, some FieldName.ref⟩ : ParseState).field = some FieldName.ref ∧
    hasChapterVerse "Ref:3:16".data = true ∧
    ¬ firesChapterVerse ⟨[], QuizCard.empty, some FieldName.ref⟩ "Ref:3:16" := by
  unfold firesChapterVerse
  decide

/-- C9 (amended): while the current field is ref, the chapter:verse rule
fires for every token that contains a digit-colon-digit substring anywhere
inside it and does not itself carry the Type: or Ref: marker — for example
3:16a — and then the whole token is appended to ref and the current field
switches to extra info. -/
theorem c9_search_amended (st : ParseState) (w : String)
    (hf : st.field = some FieldName.ref)
    (hT : strStartsWith w "Type:" = false) (hR : strStartsWith w "Ref:" = false)
    (hcv : hasChapterVerse w.data = true) :
    step st w = { st with field := some FieldName.extra_info,
                          card := { st.card with ref := st.card.ref ++ " " ++ w } } :=
  step_chapverse st w hT hR hf hcv

/-- Witness for C9 (amended) at the concrete token "3:16a" with an open ref
field. -/
theorem c9_search_witness :
    step ⟨[], QuizCard.empty, some FieldName.ref⟩ "3:16a" =
      ⟨[], ⟨"", " 3:16a", "", "", "", ""⟩, some FieldName.extra_info⟩ :=
  (c9_search_amended ⟨[], QuizCard.empty, some FieldName.ref⟩ "3:16a"
    rfl (by decide) (by decide) (by decide)).trans (by decide)

/-- C8: CSV serialization writes one header row with exactly the columns
Type, Ref, Extra Info, Club, Question, Answer in that order (Extra Info
between Ref and Club), then exactly one row per record in order, each row
holding the six field values trimmed of surrounding whitespace and each
value wrapped in quotes. -/
theorem c8_csv_output (cards : List QuizCard) :
    (save_to_csv cards).head? =
      some "\"Type\",\"Ref\",\"Extra Info\",\"Club\",\"Question\",\"Answer\"" ∧
    (save_to_csv cards).tail =
      cards.map (fun c =>
        csvRow [pyStrip c.card_type, pyStrip c.ref, pyStrip c.extra_info,
                pyStrip c.club, pyStrip c.question, pyStrip c.answer]) ∧
    (save_to_csv cards).length = cards.length + 1 := by
  refine ⟨rfl, rfl, ?_⟩
  simp [save_to_csv]

end QuizCardProg
